import Mathlib

/-!
Verification of the refresh-token rotation and reuse-detection engine of the
Qyou repository.

The engine lives in `src/apps/api/routes/auth.ts` (the `/login` and `/refresh`
handlers and the `revokeAllUserSessions` helper), with the persisted record
shape in `src/apps/api/models/Session.ts` and token plumbing in
`src/apps/api/auth/tokens.ts`.

Embedding conventions:
- A Mongo `Session` document becomes the structure `Session`; the document
  `_id` becomes the field `sessionId : Nat` (Mongo guarantees `_id` is unique
  per collection).
- Dates (`Date.now()`, `new Date()`, `expiresAt.getTime()`) become `Nat`
  milliseconds, passed in as a `now` parameter.
- `crypto.randomUUID()` (`generateDeviceId` / `generateFamilyId` /
  `generateTokenId`) and the JWT signing + SHA-256 hashing of the freshly
  minted refresh token (`issueTokenPair` / `hashToken`) are nondeterministic
  from the ledger's point of view, so each freshly generated value is an
  explicit parameter of the operation that consumes it.  Freshness (UUID /
  hash non-collision) is stated as an explicit hypothesis where a theorem
  needs it.
- `verifyRefreshToken` (JWT signature + embedded-expiry check, collapsed by
  the source into one `AuthError`) is modelled by an `Option RefreshPayload`
  parameter: `none` means verification threw, `some p` means it returned
  payload `p`.  `hashToken(refreshToken)` is the parameter `tokenHash`.
- `User.findById(payload.sub)` is modelled by the identity-store predicate
  `users : String → Bool`.
- The spec's vocabulary maps onto the source as: `credentialHash` ↦
  `refreshTokenHash`, `successorHash` ↦ `replacedByHash`, `parentHash` ↦
  `parentTokenHash`, reason `device-relogin` ↦ `"DEVICE_RELOGIN"`, reason
  `expired` ↦ `"REFRESH_TOKEN_EXPIRED"`, and the error kinds
  `InvalidCredential` / `CredentialExpired` / `CredentialRejected` ↦ the
  `AuthError` throw sites of the `/refresh` handler (mirrored by the
  constructors of `RotateError` below).
-/

namespace Qyou

/-- The `status` enum of `sessionSchema` in `src/apps/api/models/Session.ts`:
`'active' | 'consumed' | 'revoked'`. -/
inductive SessionStatus
  | active
  | consumed
  | revoked
deriving DecidableEq, Repr

/-- One persisted `Session` document (`src/apps/api/models/Session.ts`).
`sessionId` stands for the Mongo `_id`. -/
structure Session where
  sessionId : Nat
  userId : String
  deviceId : String
  familyId : String
  tokenId : String
  refreshTokenHash : String
  parentTokenHash : Option String := none
  replacedByHash : Option String := none
  status : SessionStatus := .active
  consumedAt : Option Nat := none
  revokedAt : Option Nat := none
  revokedReason : Option String := none
  expiresAt : Nat
deriving DecidableEq, Repr

/-- `revokeAllUserSessions` (`src/apps/api/routes/auth.ts`, lines 17–28):
`Session.updateMany({ userId, status: { $ne: 'revoked' } }, { $set: { status:
'revoked', revokedAt: new Date(), revokedReason: reason } })`. -/
def revokeAllUserSessions (ledger : List Session) (userId reason : String)
    (now : Nat) : List Session :=
  ledger.map fun s =>
    if s.userId = userId ∧ s.status ≠ .revoked then
      { s with status := .revoked, revokedAt := some now,
               revokedReason := some reason }
    else s

/-- The data the `/login` handler returns to the client alongside the token
pair (only `deviceId` is ledger-relevant; `familyId` / `tokenId` are recorded
for the freshness statements). -/
structure LoginResult where
  deviceId : String
  familyId : String
  tokenId : String
deriving DecidableEq, Repr

/-- The ledger-facing part of the `/login` handler (`src/apps/api/routes/auth.ts`,
lines 81–112), after the password check (an external collaborator) succeeded
for `userId`:
`const deviceId = providedDeviceId || generateDeviceId()`, then
`Session.updateMany({ userId, deviceId, status: 'active' }, { $set: { status:
'revoked', revokedAt: new Date(), revokedReason: 'DEVICE_RELOGIN' } })`, then
`Session.create({...status: 'active'})` for the new chain head.
`genDeviceId`, `genFamilyId`, `genTokenId` are the `crypto.randomUUID()`
results, `newHash` is `hashToken(tokenPair.refreshToken)`, `newId` the fresh
Mongo `_id`, and `refreshExpiresAt` is `tokenPair.refreshExpiresAt`. -/
def login (ledger : List Session) (userId providedDeviceId : String)
    (genDeviceId genFamilyId genTokenId newHash : String)
    (newId now refreshExpiresAt : Nat) : List Session × LoginResult :=
  let deviceId := if providedDeviceId = "" then genDeviceId else providedDeviceId
  let afterRevoke := ledger.map fun s =>
    if s.userId = userId ∧ s.deviceId = deviceId ∧ s.status = .active then
      { s with status := .revoked, revokedAt := some now,
               revokedReason := some "DEVICE_RELOGIN" }
    else s
  let head : Session :=
    { sessionId := newId, userId := userId, deviceId := deviceId,
      familyId := genFamilyId, tokenId := genTokenId,
      refreshTokenHash := newHash, expiresAt := refreshExpiresAt }
  (afterRevoke ++ [head],
   { deviceId := deviceId, familyId := genFamilyId, tokenId := genTokenId })

/-- The payload of a verified long-lived (refresh) token
(`RefreshPayload` in `src/apps/api/auth/tokens.ts`). -/
structure RefreshPayload where
  sub : String
  deviceId : String
  familyId : String
  tokenId : String
deriving DecidableEq, Repr

/-- The distinct failure outcomes of the `/refresh` handler.  All surface as
`AuthError` in the source; the constructors mirror the distinct throw sites
(and the spec's taxonomy): `invalidCredential` = 'Invalid or expired refresh
token' (thrown by `verifyRefreshToken`), `credentialRejected` = 'Refresh token
is invalid' / 'Refresh token reuse detected. All sessions revoked.',
`credentialExpired` = 'Refresh token is expired', `userNotFound` = 'User
account not found'. -/
inductive RotateError
  | invalidCredential
  | credentialRejected
  | credentialExpired
  | userNotFound
deriving DecidableEq, Repr

instance : DecidableEq (Except RotateError Unit) := fun a b =>
  match a, b with
  | .ok (), .ok () => isTrue rfl
  | .error e, .error f =>
    if h : e = f then isTrue (by rw [h])
    else isFalse (by intro hh; cases hh; exact h rfl)
  | .ok _, .error _ => isFalse (by intro h; cases h)
  | .error _, .ok _ => isFalse (by intro h; cases h)

/-- The `Session.findOne({ refreshTokenHash: tokenHash, userId: payload.sub,
familyId: payload.familyId, tokenId: payload.tokenId })` filter of the
`/refresh` handler (lines 133–138). -/
def matchesLookup (tokenHash : String) (p : RefreshPayload) (s : Session) : Bool :=
  decide (s.refreshTokenHash = tokenHash ∧ s.userId = p.sub ∧
          s.familyId = p.familyId ∧ s.tokenId = p.tokenId)

/-- A mongoose `document.save()`: an unconditional write-back of the modified
document, keyed only on the document `_id` (the schema enables no optimistic
concurrency and `status` is not an array path, so no version check applies). -/
def saveById (ledger : List Session) (id : Nat) (s : Session) : List Session :=
  ledger.map fun t => if t.sessionId = id then s else t

/-- Lines 174–176 of the `/refresh` handler: `currentSession.status =
'consumed'; currentSession.consumedAt = new Date(); currentSession.replacedByHash
= nextHash`. -/
def consumeSession (cur : Session) (nextHash : String) (now : Nat) : Session :=
  { cur with status := .consumed, consumedAt := some now,
             replacedByHash := some nextHash }

/-- Lines 150–154 of the `/refresh` handler: mark the expired link revoked
with reason `'REFRESH_TOKEN_EXPIRED'`. -/
def expireSession (cur : Session) (now : Nat) : Session :=
  { cur with status := .revoked, revokedAt := some now,
             revokedReason := some "REFRESH_TOKEN_EXPIRED" }

/-- Lines 179–188 of the `/refresh` handler: the `Session.create` of the
successor link (`parentTokenHash` = the presented token's hash, same
`deviceId`/`familyId` as the payload, fresh `tokenId` and hash). -/
def successorSession (p : RefreshPayload) (nextTokenId nextHash tokenHash : String)
    (newId refreshExpiresAt : Nat) : Session :=
  { sessionId := newId, userId := p.sub, deviceId := p.deviceId,
    familyId := p.familyId, tokenId := nextTokenId,
    refreshTokenHash := nextHash, parentTokenHash := some tokenHash,
    expiresAt := refreshExpiresAt }

/-- The `/refresh` handler (`src/apps/api/routes/auth.ts`, lines 124–198),
from `verifyRefreshToken` on.  `payload` is the result of verification
(`none` = the JWT check threw), `tokenHash` = `hashToken(refreshToken)`,
`users` the identity store (`User.findById`), `nextTokenId` the fresh
`generateTokenId()`, `nextHash` = `hashToken` of the freshly minted refresh
token, `newId` the fresh Mongo `_id` of the successor document.  Returns the
ledger after the call together with the outcome. -/
def refresh (ledger : List Session) (payload : Option RefreshPayload)
    (tokenHash : String) (users : String → Bool)
    (nextTokenId nextHash : String) (newId now refreshExpiresAt : Nat) :
    List Session × Except RotateError Unit :=
  match payload with
  | none => (ledger, .error .invalidCredential)
  | some p =>
    match ledger.find? (matchesLookup tokenHash p) with
    | none =>
      (revokeAllUserSessions ledger p.sub "REFRESH_TOKEN_REUSE_OR_UNKNOWN" now,
       .error .credentialRejected)
    | some cur =>
      if cur.status ≠ .active then
        (revokeAllUserSessions ledger p.sub "REFRESH_TOKEN_REUSE_DETECTED" now,
         .error .credentialRejected)
      else if cur.expiresAt ≤ now then
        (saveById ledger cur.sessionId (expireSession cur now),
         .error .credentialExpired)
      else if users p.sub = false then
        (revokeAllUserSessions ledger p.sub "USER_NOT_FOUND" now,
         .error .userNotFound)
      else
        (saveById ledger cur.sessionId (consumeSession cur nextHash now) ++
           [successorSession p nextTokenId nextHash tokenHash newId refreshExpiresAt],
         .ok ())

/-! ### Interleaved execution of two concurrent `/refresh` requests

Each `await` on a Mongo operation in the handler is one atomic step against
the store; between two awaits of one request, the other request may run.  The
handler's awaits are: `Session.findOne` (one read), then — on the rotation
path — `currentSession.save()` (one unconditional write keyed on `_id`,
see `saveById`) and `Session.create` (one insert).  The error paths each
perform their single `updateMany`/`save` write and throw in one step.
`User.findById` touches the user collection, not the session ledger, so it is
folded into the step that follows the read. -/

/-- Program counter of one in-flight `/refresh` request.  `fetched` holds the
in-memory mongoose document returned by `findOne` — the later status /
expiry checks read this snapshot, not the store. -/
inductive ThreadPC
  | start
  | fetched (snapshot : Option Session)
  | consumedStep (cur : Session)
  | done (result : Except RotateError Unit)
deriving DecidableEq, Repr

/-- The per-request inputs of one `/refresh` invocation (verified payload,
presented token's hash, freshly generated successor data). -/
structure ThreadInput where
  payload : RefreshPayload
  tokenHash : String
  nextTokenId : String
  nextHash : String
  newId : Nat
  refreshExpiresAt : Nat
deriving DecidableEq, Repr

/-- One atomic step of one in-flight `/refresh` request against the shared
ledger.  Sequencing all steps of one request with no interleaving reproduces
`refresh` exactly. -/
def threadStep (users : String → Bool) (now : Nat) (t : ThreadInput)
    (ledger : List Session) (pc : ThreadPC) : List Session × ThreadPC :=
  match pc with
  | .start =>
    (ledger, .fetched (ledger.find? (matchesLookup t.tokenHash t.payload)))
  | .fetched none =>
    (revokeAllUserSessions ledger t.payload.sub "REFRESH_TOKEN_REUSE_OR_UNKNOWN" now,
     .done (.error .credentialRejected))
  | .fetched (some cur) =>
    if cur.status ≠ .active then
      (revokeAllUserSessions ledger t.payload.sub "REFRESH_TOKEN_REUSE_DETECTED" now,
       .done (.error .credentialRejected))
    else if cur.expiresAt ≤ now then
      (saveById ledger cur.sessionId (expireSession cur now),
       .done (.error .credentialExpired))
    else if users t.payload.sub = false then
      (revokeAllUserSessions ledger t.payload.sub "USER_NOT_FOUND" now,
       .done (.error .userNotFound))
    else
      (saveById ledger cur.sessionId (consumeSession cur t.nextHash now),
       .consumedStep cur)
  | .consumedStep _ =>
    (ledger ++ [successorSession t.payload t.nextTokenId t.nextHash t.tokenHash
                  t.newId t.refreshExpiresAt],
     .done (.ok ()))
  | .done r => (ledger, .done r)

/-- Run two in-flight `/refresh` requests under a schedule: `true` lets
request 1 take its next atomic step, `false` lets request 2. -/
def runSchedule (users : String → Bool) (now : Nat) (t1 t2 : ThreadInput) :
    List Bool → List Session → ThreadPC → ThreadPC →
    List Session × ThreadPC × ThreadPC
  | [], ledger, pc1, pc2 => (ledger, pc1, pc2)
  | true :: rest, ledger, pc1, pc2 =>
    runSchedule users now t1 t2 rest
      (threadStep users now t1 ledger pc1).1
      (threadStep users now t1 ledger pc1).2 pc2
  | false :: rest, ledger, pc1, pc2 =>
    runSchedule users now t1 t2 rest
      (threadStep users now t2 ledger pc2).1 pc1
      (threadStep users now t2 ledger pc2).2

/-! ### Helper lemmas -/

lemma matchesLookup_eq_true {tokenHash : String} {p : RefreshPayload} {s : Session} :
    matchesLookup tokenHash p s = true ↔
      s.refreshTokenHash = tokenHash ∧ s.userId = p.sub ∧
      s.familyId = p.familyId ∧ s.tokenId = p.tokenId := by
  simp [matchesLookup]

lemma revokeAll_mem (l : List Session) (u r : String) (n : Nat) :
    ∀ s ∈ revokeAllUserSessions l u r n, s.userId = u → s.status = .revoked := by
  intro s hs hu
  unfold revokeAllUserSessions at hs
  rcases List.mem_map.mp hs with ⟨t, _, rfl⟩
  by_cases h : t.userId = u ∧ t.status ≠ .revoked
  · rw [if_pos h]
  · rw [if_neg h] at hu ⊢
    by_contra hc
    exact h ⟨hu, hc⟩

lemma find?_saveById (l : List Session) (pred : Session → Bool) (cur v : Session)
    (hfind : l.find? pred = some cur) (hv : pred v = true) :
    (saveById l cur.sessionId v).find? pred = some v := by
  induction l with
  | nil => simp at hfind
  | cons a t ih =>
    by_cases hpa : pred a = true
    · rw [List.find?_cons_of_pos _ hpa] at hfind
      injection hfind with hcur
      subst hcur
      unfold saveById
      simp only [List.map_cons, if_pos rfl]
      exact List.find?_cons_of_pos _ hv
    · have hpa' : pred a = false := by simpa using hpa
      rw [List.find?_cons_of_neg _ (by simp [hpa'])] at hfind
      unfold saveById at ih ⊢
      simp only [List.map_cons]
      by_cases hid : a.sessionId = cur.sessionId
      · rw [if_pos hid]
        exact List.find?_cons_of_pos _ hv
      · rw [if_neg hid]
        rw [List.find?_cons_of_neg _ (by simp [hpa'])]
        exact ih hfind

lemma consumeSession_matches {tokenHash : String} {p : RefreshPayload}
    {cur : Session} {nextHash : String} {now : Nat}
    (h : matchesLookup tokenHash p cur = true) :
    matchesLookup tokenHash p (consumeSession cur nextHash now) = true := by
  rw [matchesLookup_eq_true] at h ⊢
  simpa [consumeSession] using h

/-- On the happy path (link found, active, unexpired, user exists) the
`/refresh` handler consumes the current link and appends the successor. -/
lemma refresh_success_eq (ledger : List Session) (p : RefreshPayload)
    (tokenHash : String) (users : String → Bool) (nextTokenId nextHash : String)
    (newId now refreshExpiresAt : Nat) (cur : Session)
    (hfind : ledger.find? (matchesLookup tokenHash p) = some cur)
    (hactive : cur.status = .active) (hexp : now < cur.expiresAt)
    (huser : users p.sub = true) :
    refresh ledger (some p) tokenHash users nextTokenId nextHash newId now
        refreshExpiresAt =
      (saveById ledger cur.sessionId (consumeSession cur nextHash now) ++
         [successorSession p nextTokenId nextHash tokenHash newId refreshExpiresAt],
       .ok ()) := by
  simp only [refresh]
  rw [hfind]
  simp only [hactive, huser]
  rw [if_neg (by simp), if_neg (Nat.not_le.mpr hexp), if_neg (by simp)]

/-- When the lookup returns a non-active link, the `/refresh` handler takes
the reuse-detection branch. -/
lemma refresh_reuse_eq (ledger : List Session) (p : RefreshPayload)
    (tokenHash : String) (users : String → Bool) (nextTokenId nextHash : String)
    (newId now refreshExpiresAt : Nat) (cur : Session)
    (hfind : ledger.find? (matchesLookup tokenHash p) = some cur)
    (hstale : cur.status ≠ .active) :
    refresh ledger (some p) tokenHash users nextTokenId nextHash newId now
        refreshExpiresAt =
      (revokeAllUserSessions ledger p.sub "REFRESH_TOKEN_REUSE_DETECTED" now,
       .error .credentialRejected) := by
  simp only [refresh]
  rw [hfind]
  exact if_pos hstale

/-- When the lookup finds no row, the `/refresh` handler takes the
unknown-credential branch. -/
lemma refresh_notFound_eq (ledger : List Session) (p : RefreshPayload)
    (tokenHash : String) (users : String → Bool) (nextTokenId nextHash : String)
    (newId now refreshExpiresAt : Nat)
    (hfind : ledger.find? (matchesLookup tokenHash p) = none) :
    refresh ledger (some p) tokenHash users nextTokenId nextHash newId now
        refreshExpiresAt =
      (revokeAllUserSessions ledger p.sub "REFRESH_TOKEN_REUSE_OR_UNKNOWN" now,
       .error .credentialRejected) := by
  simp only [refresh]
  rw [hfind]

/-- When the lookup finds an active but expired row, the `/refresh` handler
takes the expiry branch. -/
lemma refresh_expired_eq (ledger : List Session) (p : RefreshPayload)
    (tokenHash : String) (users : String → Bool) (nextTokenId nextHash : String)
    (newId now refreshExpiresAt : Nat) (cur : Session)
    (hfind : ledger.find? (matchesLookup tokenHash p) = some cur)
    (hactive : cur.status = .active) (hexpired : cur.expiresAt ≤ now) :
    refresh ledger (some p) tokenHash users nextTokenId nextHash newId now
        refreshExpiresAt =
      (saveById ledger cur.sessionId (expireSession cur now),
       .error .credentialExpired) := by
  simp only [refresh]
  rw [hfind]
  simp only [hactive]
  rw [if_neg (by simp), if_pos hexpired]

/-- When the lookup finds an active, unexpired row but the subject has no user
record, the `/refresh` handler takes the user-not-found branch. -/
lemma refresh_userNotFound_eq (ledger : List Session) (p : RefreshPayload)
    (tokenHash : String) (users : String → Bool) (nextTokenId nextHash : String)
    (newId now refreshExpiresAt : Nat) (cur : Session)
    (hfind : ledger.find? (matchesLookup tokenHash p) = some cur)
    (hactive : cur.status = .active) (hnotexp : now < cur.expiresAt)
    (husers : users p.sub = false) :
    refresh ledger (some p) tokenHash users nextTokenId nextHash newId now
        refreshExpiresAt =
      (revokeAllUserSessions ledger p.sub "USER_NOT_FOUND" now,
       .error .userNotFound) := by
  simp only [refresh]
  rw [hfind]
  simp only [hactive, husers]
  rw [if_neg (by simp), if_neg (Nat.not_le.mpr hnotexp), if_pos trivial]

/-- Pointwise description of `revokeAllUserSessions`: matched rows are revoked
with the given reason, all other rows are untouched. -/
lemma revokeAll_forall₂ (l : List Session) (u reason : String) (n : Nat) :
    List.Forall₂ (fun old new =>
      (old.userId = u ∧ old.status ≠ .revoked →
        new.status = .revoked ∧ new.revokedReason = some reason) ∧
      (¬(old.userId = u ∧ old.status ≠ .revoked) → new = old)) l
      (revokeAllUserSessions l u reason n) := by
  unfold revokeAllUserSessions
  rw [List.forall₂_map_right_iff, List.forall₂_same]
  intro a _
  constructor
  · intro h
    rw [if_pos h]
    exact ⟨rfl, rfl⟩
  · intro h
    rw [if_neg h]

/-! ### Sample fixtures for witnesses and counterexamples -/

/-- A concrete active chain link used to instantiate theorems. -/
def sampleActive : Session :=
  { sessionId := 1, userId := "u", deviceId := "d", familyId := "f",
    tokenId := "t0", refreshTokenHash := "h0", expiresAt := 100 }

/-- The verified payload matching `sampleActive`. -/
def samplePayload : RefreshPayload :=
  { sub := "u", deviceId := "d", familyId := "f", tokenId := "t0" }

/-- An identity store containing every subject. -/
def sampleUsers : String → Bool := fun _ => true

/-! ### Claims -/

/-- C1: presenting the same long-lived credential twice: the first `/refresh`
call succeeds, the second fails with `CredentialRejected` (the reuse-detection
`AuthError`) and afterwards every session link of that user — in particular
every previously active one — is in state `revoked`. -/
theorem double_rotation_reuse_rejects_and_revokes
    (ledger : List Session) (p : RefreshPayload) (tokenHash : String)
    (users users2 : String → Bool)
    (nextTokenId nextHash nextTokenId2 nextHash2 : String)
    (newId now refreshExpiresAt newId2 now2 refreshExpiresAt2 : Nat)
    (cur : Session)
    (hfind : ledger.find? (matchesLookup tokenHash p) = some cur)
    (hactive : cur.status = .active)
    (hexp : now < cur.expiresAt)
    (huser : users p.sub = true) :
    (refresh ledger (some p) tokenHash users nextTokenId nextHash newId now
        refreshExpiresAt).2 = .ok () ∧
    (refresh (refresh ledger (some p) tokenHash users nextTokenId nextHash newId
          now refreshExpiresAt).1
        (some p) tokenHash users2 nextTokenId2 nextHash2 newId2 now2
        refreshExpiresAt2).2 = .error .credentialRejected ∧
    ∀ s ∈ (refresh (refresh ledger (some p) tokenHash users nextTokenId nextHash
          newId now refreshExpiresAt).1
        (some p) tokenHash users2 nextTokenId2 nextHash2 newId2 now2
        refreshExpiresAt2).1,
      s.userId = p.sub → s.status = .revoked := by
  have h1 := refresh_success_eq ledger p tokenHash users nextTokenId nextHash
    newId now refreshExpiresAt cur hfind hactive hexp huser
  have hmatch : matchesLookup tokenHash p (consumeSession cur nextHash now) = true :=
    consumeSession_matches (List.find?_some hfind)
  have hfind2 : (saveById ledger cur.sessionId (consumeSession cur nextHash now) ++
      [successorSession p nextTokenId nextHash tokenHash newId refreshExpiresAt]).find?
        (matchesLookup tokenHash p) = some (consumeSession cur nextHash now) := by
    rw [List.find?_append, find?_saveById ledger _ cur _ hfind hmatch]
    rfl
  have h2 := refresh_reuse_eq _ p tokenHash users2 nextTokenId2 nextHash2 newId2
    now2 refreshExpiresAt2 (consumeSession cur nextHash now) hfind2
    (by simp [consumeSession])
  simp only [h1]
  simp only [h2]
  exact ⟨trivial, trivial, revokeAll_mem _ _ _ _⟩

/-- Witness for C1 at a concrete ledger. -/
theorem double_rotation_reuse_rejects_and_revokes_witness :
    ([sampleActive].find? (matchesLookup "h0" samplePayload) = some sampleActive ∧
     sampleActive.status = .active ∧ 0 < sampleActive.expiresAt ∧
     sampleUsers samplePayload.sub = true) ∧
    ((refresh [sampleActive] (some samplePayload) "h0" sampleUsers "t1" "h1" 2 0
        200).2 = .ok () ∧
     (refresh (refresh [sampleActive] (some samplePayload) "h0" sampleUsers "t1"
          "h1" 2 0 200).1
        (some samplePayload) "h0" sampleUsers "t2" "h2" 3 5 300).2 =
       .error .credentialRejected ∧
     ∀ s ∈ (refresh (refresh [sampleActive] (some samplePayload) "h0" sampleUsers
          "t1" "h1" 2 0 200).1
        (some samplePayload) "h0" sampleUsers "t2" "h2" 3 5 300).1,
       s.userId = samplePayload.sub → s.status = .revoked) :=
  ⟨⟨by decide, by decide, by decide, by decide⟩,
   double_rotation_reuse_rejects_and_revokes [sampleActive] samplePayload "h0"
     sampleUsers sampleUsers "t1" "h1" "t2" "h2" 2 0 200 3 5 300 sampleActive
     (by decide) (by decide) (by decide) (by decide)⟩

/-- C6: a credential that verifies but whose `(refreshTokenHash, userId,
familyId, tokenId)` quadruple matches no ledger row makes `/refresh` fail with
`CredentialRejected` ('Refresh token is invalid') after revoking the sessions
of the subject claimed in the payload: afterwards every session of
`payload.sub` — in particular every previously active one — is `revoked`. -/
theorem unknown_credential_rejected_and_revokes
    (ledger : List Session) (p : RefreshPayload) (tokenHash : String)
    (users : String → Bool) (nextTokenId nextHash : String)
    (newId now refreshExpiresAt : Nat)
    (hfind : ledger.find? (matchesLookup tokenHash p) = none) :
    (refresh ledger (some p) tokenHash users nextTokenId nextHash newId now
        refreshExpiresAt).2 = .error .credentialRejected ∧
    ∀ s ∈ (refresh ledger (some p) tokenHash users nextTokenId nextHash newId
        now refreshExpiresAt).1,
      s.userId = p.sub → s.status = .revoked := by
  rw [refresh_notFound_eq ledger p tokenHash users nextTokenId nextHash newId
    now refreshExpiresAt hfind]
  exact ⟨rfl, revokeAll_mem _ _ _ _⟩

/-- Witness for C6: the sample ledger holds no row with hash `"hZ"`. -/
theorem unknown_credential_rejected_and_revokes_witness :
    ([sampleActive].find? (matchesLookup "hZ" samplePayload) = none) ∧
    ((refresh [sampleActive] (some samplePayload) "hZ" sampleUsers "t1" "h1" 2 0
        200).2 = .error .credentialRejected ∧
     ∀ s ∈ (refresh [sampleActive] (some samplePayload) "hZ" sampleUsers "t1"
        "h1" 2 0 200).1,
       s.userId = samplePayload.sub → s.status = .revoked) :=
  ⟨by decide,
   unknown_credential_rejected_and_revokes [sampleActive] samplePayload "hZ"
     sampleUsers "t1" "h1" 2 0 200 (by decide)⟩

/-- C7: a credential that verifies and matches an active ledger row whose
`expiresAt` has passed makes `/refresh` fail with `CredentialExpired`; that
one row (identified by its document id) becomes `revoked` with reason
`'REFRESH_TOKEN_EXPIRED'` (the spec's reason `expired`), and every other row
of the ledger is left exactly as it was. -/
theorem expired_credential_revokes_only_that_link
    (ledger : List Session) (p : RefreshPayload) (tokenHash : String)
    (users : String → Bool) (nextTokenId nextHash : String)
    (newId now refreshExpiresAt : Nat) (cur : Session)
    (hfind : ledger.find? (matchesLookup tokenHash p) = some cur)
    (hactive : cur.status = .active) (hexpired : cur.expiresAt ≤ now) :
    (refresh ledger (some p) tokenHash users nextTokenId nextHash newId now
        refreshExpiresAt).2 = .error .credentialExpired ∧
    List.Forall₂ (fun old new =>
      (old.sessionId = cur.sessionId →
        new.status = .revoked ∧ new.revokedReason = some "REFRESH_TOKEN_EXPIRED") ∧
      (old.sessionId ≠ cur.sessionId → new = old)) ledger
      (refresh ledger (some p) tokenHash users nextTokenId nextHash newId now
        refreshExpiresAt).1 := by
  rw [refresh_expired_eq ledger p tokenHash users nextTokenId nextHash newId now
    refreshExpiresAt cur hfind hactive hexpired]
  refine ⟨rfl, ?_⟩
  unfold saveById
  rw [List.forall₂_map_right_iff, List.forall₂_same]
  intro a _
  constructor
  · intro hid
    rw [if_pos hid]
    exact ⟨rfl, rfl⟩
  · intro hid
    rw [if_neg hid]

/-- Witness for C7: the sample link expires at time 100 and is presented at
time 100. -/
theorem expired_credential_revokes_only_that_link_witness :
    ([sampleActive].find? (matchesLookup "h0" samplePayload) = some sampleActive ∧
     sampleActive.status = .active ∧ sampleActive.expiresAt ≤ 100) ∧
    ((refresh [sampleActive] (some samplePayload) "h0" sampleUsers "t1" "h1" 2
        100 200).2 = .error .credentialExpired ∧
     List.Forall₂ (fun old new =>
       (old.sessionId = sampleActive.sessionId →
         new.status = .revoked ∧ new.revokedReason = some "REFRESH_TOKEN_EXPIRED") ∧
       (old.sessionId ≠ sampleActive.sessionId → new = old)) [sampleActive]
       (refresh [sampleActive] (some samplePayload) "h0" sampleUsers "t1" "h1" 2
         100 200).1) :=
  ⟨⟨by decide, by decide, by decide⟩,
   expired_credential_revokes_only_that_link [sampleActive] samplePayload "h0"
     sampleUsers "t1" "h1" 2 100 200 sampleActive (by decide) (by decide)
     (by decide)⟩

/-- C8: when `verifyRefreshToken` fails (malformed, tampered, or past the
embedded expiry — modelled as `payload = none`), `/refresh` fails with
`InvalidCredential` and the ledger is returned exactly as it was: no session
link is mutated. -/
theorem invalid_credential_no_mutation
    (ledger : List Session) (tokenHash : String) (users : String → Bool)
    (nextTokenId nextHash : String) (newId now refreshExpiresAt : Nat) :
    refresh ledger none tokenHash users nextTokenId nextHash newId now
        refreshExpiresAt = (ledger, .error .invalidCredential) := rfl

/-- C9: `revokeAllUserSessions` is idempotent — a second call for the same
user, with any reason and at any time, returns the ledger produced by the
first call unchanged (and, being a total function, it never errors). -/
theorem revokeAllUserSessions_idempotent
    (ledger : List Session) (u r r' : String) (n n' : Nat) :
    revokeAllUserSessions (revokeAllUserSessions ledger u r n) u r' n' =
      revokeAllUserSessions ledger u r n := by
  unfold revokeAllUserSessions
  rw [List.map_map]
  apply List.map_congr_left
  intro a _
  by_cases h : a.userId = u ∧ a.status ≠ .revoked
  · simp only [Function.comp_apply, if_pos h]
    rw [if_neg]
    intro hc
    exact hc.2 rfl
  · simp only [Function.comp_apply, if_neg h, if_neg h]

/-- C10: a verified credential matching an active, unexpired row whose subject
has no user record makes `/refresh` fail with the `AuthError` 'User account
not found' (`userNotFound`), after revoking every non-revoked session of that
subject with reason `'USER_NOT_FOUND'`; rows of other users are untouched. -/
theorem missing_user_rejected_and_revokes
    (ledger : List Session) (p : RefreshPayload) (tokenHash : String)
    (users : String → Bool) (nextTokenId nextHash : String)
    (newId now refreshExpiresAt : Nat) (cur : Session)
    (hfind : ledger.find? (matchesLookup tokenHash p) = some cur)
    (hactive : cur.status = .active) (hnotexp : now < cur.expiresAt)
    (husers : users p.sub = false) :
    (refresh ledger (some p) tokenHash users nextTokenId nextHash newId now
        refreshExpiresAt).2 = .error .userNotFound ∧
    List.Forall₂ (fun old new =>
      (old.userId = p.sub ∧ old.status ≠ .revoked →
        new.status = .revoked ∧ new.revokedReason = some "USER_NOT_FOUND") ∧
      (¬(old.userId = p.sub ∧ old.status ≠ .revoked) → new = old)) ledger
      (refresh ledger (some p) tokenHash users nextTokenId nextHash newId now
        refreshExpiresAt).1 := by
  rw [refresh_userNotFound_eq ledger p tokenHash users nextTokenId nextHash
    newId now refreshExpiresAt cur hfind hactive hnotexp husers]
  exact ⟨rfl, revokeAll_forall₂ ledger p.sub "USER_NOT_FOUND" now⟩

/-- Witness for C10: the identity store is empty. -/
theorem missing_user_rejected_and_revokes_witness :
    ([sampleActive].find? (matchesLookup "h0" samplePayload) = some sampleActive ∧
     sampleActive.status = .active ∧ 0 < sampleActive.expiresAt ∧
     (fun _ : String => false) samplePayload.sub = false) ∧
    ((refresh [sampleActive] (some samplePayload) "h0" (fun _ => false) "t1"
        "h1" 2 0 200).2 = .error .userNotFound ∧
     List.Forall₂ (fun old new =>
       (old.userId = samplePayload.sub ∧ old.status ≠ .revoked →
         new.status = .revoked ∧ new.revokedReason = some "USER_NOT_FOUND") ∧
       (¬(old.userId = samplePayload.sub ∧ old.status ≠ .revoked) → new = old))
       [sampleActive]
       (refresh [sampleActive] (some samplePayload) "h0" (fun _ => false) "t1"
         "h1" 2 0 200).1) :=
  ⟨⟨by decide, by decide, by decide, by decide⟩,
   missing_user_rejected_and_revokes [sampleActive] samplePayload "h0"
     (fun _ => false) "t1" "h1" 2 0 200 sampleActive (by decide) (by decide)
     (by decide) (by decide)⟩

/-- C4: on a successful rotation the previously active row ends `consumed`
with `replacedByHash` (the spec's `successorHash`) equal to the hash of the
newly minted long-lived credential, and the appended row is `active` with
`parentTokenHash` (the spec's `parentHash`) equal to the consumed row's
`refreshTokenHash`, the same `familyId` and `deviceId`, and a fresh `tokenId`.
`hdev` records that the ledger row carries the same `deviceId` as the signed
payload it was issued with; `hfreshTok`/`hfreshId` record freshness of the
generated UUID and Mongo `_id`. -/
theorem rotation_chain_integrity
    (ledger : List Session) (p : RefreshPayload) (tokenHash : String)
    (users : String → Bool) (nextTokenId nextHash : String)
    (newId now refreshExpiresAt : Nat) (cur : Session)
    (hfind : ledger.find? (matchesLookup tokenHash p) = some cur)
    (hactive : cur.status = .active) (hexp : now < cur.expiresAt)
    (huser : users p.sub = true)
    (hdev : cur.deviceId = p.deviceId)
    (hfreshTok : ∀ s ∈ ledger, s.tokenId ≠ nextTokenId)
    (hfreshId : ∀ s ∈ ledger, s.sessionId ≠ newId) :
    (refresh ledger (some p) tokenHash users nextTokenId nextHash newId now
        refreshExpiresAt).2 = .ok () ∧
    ((refresh ledger (some p) tokenHash users nextTokenId nextHash newId now
        refreshExpiresAt).1.getLast?).isSome = true ∧
    ∀ newS, (refresh ledger (some p) tokenHash users nextTokenId nextHash newId
        now refreshExpiresAt).1.getLast? = some newS →
      newS.status = .active ∧
      newS.parentTokenHash = some cur.refreshTokenHash ∧
      newS.familyId = cur.familyId ∧
      newS.deviceId = cur.deviceId ∧
      newS.tokenId = nextTokenId ∧
      (∀ s ∈ ledger, newS.tokenId ≠ s.tokenId) ∧
      newS.refreshTokenHash = nextHash ∧
      ∀ s ∈ (refresh ledger (some p) tokenHash users nextTokenId nextHash newId
          now refreshExpiresAt).1,
        s.sessionId = cur.sessionId →
          s.status = .consumed ∧ s.replacedByHash = some newS.refreshTokenHash := by
  have hm := List.find?_some hfind
  rw [matchesLookup_eq_true] at hm
  obtain ⟨hhash, hsub, hfam, htok⟩ := hm
  have hcurmem : cur ∈ ledger := List.mem_of_find?_eq_some hfind
  rw [refresh_success_eq ledger p tokenHash users nextTokenId nextHash newId now
    refreshExpiresAt cur hfind hactive hexp huser]
  have hlast : (saveById ledger cur.sessionId (consumeSession cur nextHash now) ++
      [successorSession p nextTokenId nextHash tokenHash newId
        refreshExpiresAt]).getLast? =
      some (successorSession p nextTokenId nextHash tokenHash newId
        refreshExpiresAt) := by
    rw [List.getLast?_append, List.getLast?_singleton]
    rfl
  refine ⟨rfl, ?_, ?_⟩
  · rw [hlast]
    rfl
  · intro newS hnew
    rw [hlast] at hnew
    injection hnew with hnew
    subst hnew
    refine ⟨rfl, ?_, ?_, ?_, rfl, ?_, rfl, ?_⟩
    · show some tokenHash = some cur.refreshTokenHash
      rw [hhash]
    · show p.familyId = cur.familyId
      rw [hfam]
    · show p.deviceId = cur.deviceId
      rw [hdev]
    · intro s hs
      exact fun hc => (hfreshTok s hs) hc.symm
    · intro s hs hsid
      rcases List.mem_append.mp hs with hs | hs
      · rcases List.mem_map.mp hs with ⟨t, htmem, rfl⟩
        by_cases hid : t.sessionId = cur.sessionId
        · rw [if_pos hid]
          exact ⟨rfl, rfl⟩
        · rw [if_neg hid] at hsid ⊢
          exact absurd hsid hid
      · rcases List.mem_singleton.mp hs with rfl
        exact absurd hsid.symm (hfreshId cur hcurmem)

/-- Witness for C4 at the sample ledger. -/
theorem rotation_chain_integrity_witness :
    ([sampleActive].find? (matchesLookup "h0" samplePayload) = some sampleActive ∧
     sampleActive.status = .active ∧ 0 < sampleActive.expiresAt ∧
     sampleUsers samplePayload.sub = true ∧
     sampleActive.deviceId = samplePayload.deviceId ∧
     (∀ s ∈ [sampleActive], s.tokenId ≠ "t1") ∧
     (∀ s ∈ [sampleActive], s.sessionId ≠ 2)) ∧
    ((refresh [sampleActive] (some samplePayload) "h0" sampleUsers "t1" "h1" 2 0
        200).2 = .ok () ∧
     ((refresh [sampleActive] (some samplePayload) "h0" sampleUsers "t1" "h1" 2
        0 200).1.getLast?).isSome = true ∧
     ∀ newS, (refresh [sampleActive] (some samplePayload) "h0" sampleUsers "t1"
        "h1" 2 0 200).1.getLast? = some newS →
       newS.status = .active ∧
       newS.parentTokenHash = some sampleActive.refreshTokenHash ∧
       newS.familyId = sampleActive.familyId ∧
       newS.deviceId = sampleActive.deviceId ∧
       newS.tokenId = "t1" ∧
       (∀ s ∈ [sampleActive], newS.tokenId ≠ s.tokenId) ∧
       newS.refreshTokenHash = "h1" ∧
       ∀ s ∈ (refresh [sampleActive] (some samplePayload) "h0" sampleUsers "t1"
           "h1" 2 0 200).1,
         s.sessionId = sampleActive.sessionId →
           s.status = .consumed ∧ s.replacedByHash = some newS.refreshTokenHash) :=
  ⟨⟨by decide, by decide, by decide, by decide, by decide, by decide, by decide⟩,
   rotation_chain_integrity [sampleActive] samplePayload "h0" sampleUsers "t1"
     "h1" 2 0 200 sampleActive (by decide) (by decide) (by decide) (by decide)
     (by decide) (by decide) (by decide)⟩

/-- C5: after a valid login exactly one active session row exists for the
`(userId, deviceId)` pair; every previously active row for that device is
revoked with reason `'DEVICE_RELOGIN'` (the spec's `device-relogin`); the
`deviceId` is the freshly generated one exactly when the caller supplied none
(empty string); and the new head row starts the freshly generated `familyId`,
one that occurs nowhere in the prior ledger (`hfam` is the UUID-freshness
hypothesis). -/
theorem login_one_active_per_device
    (ledger : List Session) (userId providedDeviceId : String)
    (genDeviceId genFamilyId genTokenId newHash : String)
    (newId now refreshExpiresAt : Nat)
    (hfam : ∀ s ∈ ledger, s.familyId ≠ genFamilyId) :
    ((login ledger userId providedDeviceId genDeviceId genFamilyId genTokenId
        newHash newId now refreshExpiresAt).1.filter fun s =>
      decide (s.userId = userId ∧
        s.deviceId = (login ledger userId providedDeviceId genDeviceId
          genFamilyId genTokenId newHash newId now refreshExpiresAt).2.deviceId ∧
        s.status = SessionStatus.active)).length = 1 ∧
    List.Forall₂ (fun old new =>
      old.userId = userId ∧
      old.deviceId = (login ledger userId providedDeviceId genDeviceId
        genFamilyId genTokenId newHash newId now refreshExpiresAt).2.deviceId ∧
      old.status = .active →
        new.status = .revoked ∧ new.revokedReason = some "DEVICE_RELOGIN") ledger
      ((login ledger userId providedDeviceId genDeviceId genFamilyId genTokenId
        newHash newId now refreshExpiresAt).1.take ledger.length) ∧
    (providedDeviceId = "" →
      (login ledger userId providedDeviceId genDeviceId genFamilyId genTokenId
        newHash newId now refreshExpiresAt).2.deviceId = genDeviceId) ∧
    (providedDeviceId ≠ "" →
      (login ledger userId providedDeviceId genDeviceId genFamilyId genTokenId
        newHash newId now refreshExpiresAt).2.deviceId = providedDeviceId) ∧
    ∀ newS, (login ledger userId providedDeviceId genDeviceId genFamilyId
        genTokenId newHash newId now refreshExpiresAt).1.getLast? = some newS →
      newS.status = .active ∧ newS.userId = userId ∧
      newS.deviceId = (login ledger userId providedDeviceId genDeviceId
        genFamilyId genTokenId newHash newId now refreshExpiresAt).2.deviceId ∧
      newS.familyId = genFamilyId ∧
      ∀ s ∈ ledger, s.familyId ≠ newS.familyId := by
  simp only [login]
  refine ⟨?_, ?_, ?_, ?_, ?_⟩
  · rw [List.filter_append]
    have hnil : (ledger.map fun s =>
        if s.userId = userId ∧
            s.deviceId = (if providedDeviceId = "" then genDeviceId
              else providedDeviceId) ∧ s.status = .active then
          { s with status := .revoked, revokedAt := some now,
                   revokedReason := some "DEVICE_RELOGIN" }
        else s).filter (fun s =>
          decide (s.userId = userId ∧
            s.deviceId = (if providedDeviceId = "" then genDeviceId
              else providedDeviceId) ∧ s.status = SessionStatus.active)) = [] := by
      rw [List.filter_eq_nil_iff]
      intro a ha
      rcases List.mem_map.mp ha with ⟨t, _, rfl⟩
      by_cases h : t.userId = userId ∧
          t.deviceId = (if providedDeviceId = "" then genDeviceId
            else providedDeviceId) ∧ t.status = SessionStatus.active
      · rw [if_pos h]
        simp
      · rw [if_neg h]
        simpa using h
    rw [hnil]
    simp
  · rw [List.take_left' (by rw [List.length_map])]
    rw [List.forall₂_map_right_iff, List.forall₂_same]
    intro a _ h
    rw [if_pos h]
    exact ⟨rfl, rfl⟩
  · intro h
    simp [h]
  · intro h
    simp [h]
  · intro newS hnew
    rw [List.getLast?_append, List.getLast?_singleton] at hnew
    injection hnew with hnew
    subst hnew
    refine ⟨rfl, rfl, rfl, rfl, ?_⟩
    intro s hs
    exact hfam s hs

/-- Witness for C5: a prior active session for the same user and device, login
without a caller-supplied device id. -/
theorem login_one_active_per_device_witness :
    (∀ s ∈ [sampleActive], s.familyId ≠ "f2") ∧
    (((login [sampleActive] "u" "" "d" "f2" "t9" "h9" 7 50 500).1.filter fun s =>
      decide (s.userId = "u" ∧
        s.deviceId = (login [sampleActive] "u" "" "d" "f2" "t9" "h9" 7 50
          500).2.deviceId ∧
        s.status = SessionStatus.active)).length = 1 ∧
    List.Forall₂ (fun old new =>
      old.userId = "u" ∧
      old.deviceId = (login [sampleActive] "u" "" "d" "f2" "t9" "h9" 7 50
        500).2.deviceId ∧
      old.status = .active →
        new.status = .revoked ∧ new.revokedReason = some "DEVICE_RELOGIN")
      [sampleActive]
      ((login [sampleActive] "u" "" "d" "f2" "t9" "h9" 7 50 500).1.take
        [sampleActive].length) ∧
    (("" : String) = "" →
      (login [sampleActive] "u" "" "d" "f2" "t9" "h9" 7 50 500).2.deviceId = "d") ∧
    (("" : String) ≠ "" →
      (login [sampleActive] "u" "" "d" "f2" "t9" "h9" 7 50 500).2.deviceId = "") ∧
    ∀ newS, (login [sampleActive] "u" "" "d" "f2" "t9" "h9" 7 50
        500).1.getLast? = some newS →
      newS.status = .active ∧ newS.userId = "u" ∧
      newS.deviceId = (login [sampleActive] "u" "" "d" "f2" "t9" "h9" 7 50
        500).2.deviceId ∧
      newS.familyId = "f2" ∧
      ∀ s ∈ [sampleActive], s.familyId ≠ newS.familyId) :=
  ⟨by decide,
   login_one_active_per_device [sampleActive] "u" "" "d" "f2" "t9" "h9" 7 50 500
     (by decide)⟩

/-! ### C3: status monotonicity -/

/-- Position of a status along the lifecycle order
`active (0) → consumed (1) → revoked (2)`. -/
def statusRank : SessionStatus → Nat
  | .active => 0
  | .consumed => 1
  | .revoked => 2

/-- The rows of `old` survive (positionally) into `new`, each with a status
that only moved forward along `active → consumed → revoked`. -/
def StatusMono (old new : List Session) : Prop :=
  List.Forall₂ (fun a b => statusRank a.status ≤ statusRank b.status) old
    (new.take old.length)

lemma statusRank_le_two (st : SessionStatus) : statusRank st ≤ 2 := by
  cases st <;> simp [statusRank]

lemma statusMono_map (l : List Session) (f : Session → Session)
    (h : ∀ a ∈ l, statusRank a.status ≤ statusRank (f a).status) :
    StatusMono l (l.map f) := by
  unfold StatusMono
  have ht : (l.map f).take l.length = l.map f := by
    rw [← List.length_map l f, List.take_length]
  rw [ht, List.forall₂_map_right_iff, List.forall₂_same]
  exact h

lemma statusMono_map_append (l : List Session) (f : Session → Session)
    (x : Session)
    (h : ∀ a ∈ l, statusRank a.status ≤ statusRank (f a).status) :
    StatusMono l (l.map f ++ [x]) := by
  unfold StatusMono
  rw [List.take_left' (by rw [List.length_map]), List.forall₂_map_right_iff,
    List.forall₂_same]
  exact h

lemma statusMono_refl (l : List Session) : StatusMono l l := by
  unfold StatusMono
  rw [List.take_length, List.forall₂_same]
  intro a _
  exact le_refl _

lemma statusMono_revokeAll (l : List Session) (u r : String) (n : Nat) :
    StatusMono l (revokeAllUserSessions l u r n) := by
  unfold revokeAllUserSessions
  apply statusMono_map
  intro a _
  by_cases h : a.userId = u ∧ a.status ≠ .revoked
  · rw [if_pos h]
    exact statusRank_le_two _
  · rw [if_neg h]

/-- C3 counterexample: `revokeAllUserSessions` (run by the reuse-detection,
unknown-credential and user-not-found branches) matches `status: { $ne:
'revoked' }`, so it moves a `consumed` link to `revoked` — the claim's "a
consumed link is never later set to revoked" is false on the code. -/
theorem consumed_link_later_revoked_counterexample :
    ({ sessionId := 4, userId := "u", deviceId := "d", familyId := "f",
       tokenId := "t4", refreshTokenHash := "h4", status := .consumed,
       expiresAt := 100 : Session }).status = .consumed ∧
    ((revokeAllUserSessions
        [{ sessionId := 4, userId := "u", deviceId := "d", familyId := "f",
           tokenId := "t4", refreshTokenHash := "h4", status := .consumed,
           expiresAt := 100 : Session }] "u" "REFRESH_TOKEN_REUSE_DETECTED"
        5).head?.map Session.status) = some .revoked := by
  decide

/-- C3 amended: session status is monotone along
`active → consumed → revoked` under every core operation
(`revokeAllUserSessions`, `login`, `/refresh`): no existing row's status ever
moves backwards, so `revoked` is terminal and no link returns to `active` —
but `consumed` is not terminal: `revokeAllUserSessions` also moves `consumed`
rows to `revoked` (see the counterexample).  The `/refresh` part assumes the
store's `_id` uniqueness (`Nodup` of the `sessionId` column). -/
theorem session_status_monotone :
    (∀ (l : List Session) (u r : String) (n : Nat),
      StatusMono l (revokeAllUserSessions l u r n)) ∧
    (∀ (l : List Session)
      (userId providedDeviceId genDeviceId genFamilyId genTokenId newHash : String)
      (newId now refreshExpiresAt : Nat),
      StatusMono l (login l userId providedDeviceId genDeviceId genFamilyId
        genTokenId newHash newId now refreshExpiresAt).1) ∧
    (∀ (l : List Session) (payload : Option RefreshPayload) (tokenHash : String)
      (users : String → Bool) (nextTokenId nextHash : String)
      (newId now refreshExpiresAt : Nat),
      (l.map Session.sessionId).Nodup →
      StatusMono l (refresh l payload tokenHash users nextTokenId nextHash
        newId now refreshExpiresAt).1) := by
  refine ⟨statusMono_revokeAll, ?_, ?_⟩
  · intro l userId providedDeviceId genDeviceId genFamilyId genTokenId newHash
      newId now refreshExpiresAt
    simp only [login]
    apply statusMono_map_append
    intro a _
    by_cases h : a.userId = userId ∧
        a.deviceId = (if providedDeviceId = "" then genDeviceId
          else providedDeviceId) ∧ a.status = .active
    · rw [if_pos h]
      exact statusRank_le_two _
    · rw [if_neg h]
  · intro l payload tokenHash users nextTokenId nextHash newId now
      refreshExpiresAt hnodup
    match payload with
    | none => exact statusMono_refl l
    | some p =>
      cases hfind : l.find? (matchesLookup tokenHash p) with
      | none =>
        rw [refresh_notFound_eq l p tokenHash users nextTokenId nextHash newId
          now refreshExpiresAt hfind]
        exact statusMono_revokeAll l p.sub "REFRESH_TOKEN_REUSE_OR_UNKNOWN" now
      | some cur =>
        by_cases hactive : cur.status = .active
        · by_cases hexpired : cur.expiresAt ≤ now
          · rw [refresh_expired_eq l p tokenHash users nextTokenId nextHash
              newId now refreshExpiresAt cur hfind hactive hexpired]
            unfold saveById
            apply statusMono_map
            intro a _
            by_cases hid : a.sessionId = cur.sessionId
            · rw [if_pos hid]
              exact statusRank_le_two _
            · rw [if_neg hid]
          · cases husers : users p.sub with
            | false =>
              rw [refresh_userNotFound_eq l p tokenHash users nextTokenId
                nextHash newId now refreshExpiresAt cur hfind hactive
                (Nat.lt_of_not_le hexpired) husers]
              exact statusMono_revokeAll l p.sub "USER_NOT_FOUND" now
            | true =>
              rw [refresh_success_eq l p tokenHash users nextTokenId nextHash
                newId now refreshExpiresAt cur hfind hactive
                (Nat.lt_of_not_le hexpired) husers]
              unfold saveById
              apply statusMono_map_append
              intro a ha
              by_cases hid : a.sessionId = cur.sessionId
              · rw [if_pos hid]
                have : a = cur := List.inj_on_of_nodup_map hnodup ha
                  (List.mem_of_find?_eq_some hfind) hid
                rw [this, hactive]
                simp [consumeSession, statusRank]
              · rw [if_neg hid]
        · rw [refresh_reuse_eq l p tokenHash users nextTokenId nextHash newId
            now refreshExpiresAt cur hfind hactive]
          exact statusMono_revokeAll l p.sub "REFRESH_TOKEN_REUSE_DETECTED" now

/-- Witness for the C3 amended theorem: its `/refresh` conjunct applied at the
sample ledger (whose `_id` column is trivially duplicate-free). -/
theorem session_status_monotone_witness :
    ([sampleActive].map Session.sessionId).Nodup ∧
    StatusMono [sampleActive]
      (refresh [sampleActive] (some samplePayload) "h0" sampleUsers "t1" "h1" 2
        0 200).1 :=
  ⟨by decide,
   session_status_monotone.2.2 [sampleActive] (some samplePayload) "h0"
     sampleUsers "t1" "h1" 2 0 200 (by decide)⟩

/-! ### C2: concurrency -/

/-- First concurrent `/refresh` attempt presenting `sampleActive`'s credential. -/
def sampleThread1 : ThreadInput :=
  { payload := samplePayload, tokenHash := "h0", nextTokenId := "t1",
    nextHash := "h1", newId := 2, refreshExpiresAt := 200 }

/-- Second concurrent `/refresh` attempt presenting the same credential. -/
def sampleThread2 : ThreadInput :=
  { payload := samplePayload, tokenHash := "h0", nextTokenId := "t2",
    nextHash := "h2", newId := 3, refreshExpiresAt := 200 }

/-- C2 counterexample: under the schedule "both requests read the session
before either writes" (request 1 fetches, request 2 fetches, request 1
consumes and inserts, request 2 consumes and inserts), BOTH rotation attempts
on the same active link succeed: the consume step is a plain mongoose
`save()` keyed on `_id`, not an atomic compare-and-set, so the loser does not
observe the winner's write.  This refutes "exactly one attempt succeeds". -/
theorem concurrent_rotations_both_succeed_counterexample :
    (runSchedule sampleUsers 0 sampleThread1 sampleThread2
      [true, false, true, true, false, false] [sampleActive] .start
      .start).2 = (.done (.ok ()), .done (.ok ())) := by
  decide

/-- C2 amended: when the two rotation attempts on the same active link are
serialized (the first runs to completion before the second takes any step),
exactly one succeeds and the other fails with `CredentialRejected`; but the
consume step is an unconditional `save()` rather than an atomic
compare-and-set, so this does not extend to arbitrary interleavings (see the
counterexample). -/
theorem serialized_rotations_one_success
    (ledger : List Session) (users : String → Bool) (now : Nat)
    (t1 t2 : ThreadInput) (cur : Session)
    (hfind : ledger.find? (matchesLookup t1.tokenHash t1.payload) = some cur)
    (hactive : cur.status = .active) (hexp : now < cur.expiresAt)
    (huser : users t1.payload.sub = true)
    (ht2p : t2.payload = t1.payload) (ht2h : t2.tokenHash = t1.tokenHash) :
    (runSchedule users now t1 t2 [true, true, true, false, false] ledger .start
      .start).2 = (.done (.ok ()), .done (.error .credentialRejected)) := by
  have hfind2 : (saveById ledger cur.sessionId
      (consumeSession cur t1.nextHash now) ++
      [successorSession t1.payload t1.nextTokenId t1.nextHash t1.tokenHash
        t1.newId t1.refreshExpiresAt]).find?
      (matchesLookup t1.tokenHash t1.payload) =
      some (consumeSession cur t1.nextHash now) := by
    rw [List.find?_append,
      find?_saveById ledger _ cur _ hfind
        (consumeSession_matches (List.find?_some hfind))]
    rfl
  have s1 : threadStep users now t1 ledger .start =
      (ledger, .fetched (some cur)) := by
    simp only [threadStep]
    rw [hfind]
  have s2 : threadStep users now t1 ledger (.fetched (some cur)) =
      (saveById ledger cur.sessionId (consumeSession cur t1.nextHash now),
       .consumedStep cur) := by
    simp only [threadStep, hactive]
    rw [if_neg (by simp), if_neg (Nat.not_le.mpr hexp),
      if_neg (by simp [huser])]
  have s3 : threadStep users now t1
      (saveById ledger cur.sessionId (consumeSession cur t1.nextHash now))
      (.consumedStep cur) =
      (saveById ledger cur.sessionId (consumeSession cur t1.nextHash now) ++
        [successorSession t1.payload t1.nextTokenId t1.nextHash t1.tokenHash
          t1.newId t1.refreshExpiresAt],
       .done (.ok ())) := rfl
  have s4 : threadStep users now t2
      (saveById ledger cur.sessionId (consumeSession cur t1.nextHash now) ++
        [successorSession t1.payload t1.nextTokenId t1.nextHash t1.tokenHash
          t1.newId t1.refreshExpiresAt]) .start =
      (saveById ledger cur.sessionId (consumeSession cur t1.nextHash now) ++
        [successorSession t1.payload t1.nextTokenId t1.nextHash t1.tokenHash
          t1.newId t1.refreshExpiresAt],
       .fetched (some (consumeSession cur t1.nextHash now))) := by
    simp only [threadStep]
    rw [ht2p, ht2h, hfind2]
  have s5 : threadStep users now t2
      (saveById ledger cur.sessionId (consumeSession cur t1.nextHash now) ++
        [successorSession t1.payload t1.nextTokenId t1.nextHash t1.tokenHash
          t1.newId t1.refreshExpiresAt])
      (.fetched (some (consumeSession cur t1.nextHash now))) =
      (revokeAllUserSessions
        (saveById ledger cur.sessionId (consumeSession cur t1.nextHash now) ++
          [successorSession t1.payload t1.nextTokenId t1.nextHash t1.tokenHash
            t1.newId t1.refreshExpiresAt])
        t2.payload.sub "REFRESH_TOKEN_REUSE_DETECTED" now,
       .done (.error .credentialRejected)) := by
    simp only [threadStep]
    rw [if_pos (by simp [consumeSession])]
  simp only [runSchedule]
  rw [s1]
  dsimp only
  rw [s2]
  dsimp only
  rw [s3]
  dsimp only
  rw [s4]
  dsimp only
  rw [s5]

/-- Witness for the C2 amended theorem at the sample ledger. -/
theorem serialized_rotations_one_success_witness :
    ([sampleActive].find? (matchesLookup sampleThread1.tokenHash
        sampleThread1.payload) = some sampleActive ∧
     sampleActive.status = .active ∧ 0 < sampleActive.expiresAt ∧
     sampleUsers sampleThread1.payload.sub = true ∧
     sampleThread2.payload = sampleThread1.payload ∧
     sampleThread2.tokenHash = sampleThread1.tokenHash) ∧
    (runSchedule sampleUsers 0 sampleThread1 sampleThread2
      [true, true, true, false, false] [sampleActive] .start .start).2 =
      (.done (.ok ()), .done (.error .credentialRejected)) :=
  ⟨⟨by decide, by decide, by decide, by decide, by decide, by decide⟩,
   serialized_rotations_one_success [sampleActive] sampleUsers 0 sampleThread1
     sampleThread2 sampleActive (by decide) (by decide) (by decide) (by decide)
     (by decide) (by decide)⟩

end Qyou



